import Mathlib

/-!
Verification of `src/app/src/util/http-utils.js`.

The module is a thin helper layer over an HTTP client (axios) and a
redux-style dispatch sink.  We embed it shallowly:

* JavaScript values relevant to the module (bodies, endpoints, flags,
  errors) are modelled by the inductive `JSValue`, with JavaScript
  truthiness given by `truthy` and property access by `getField`.
* The dispatch sink is modelled by collecting the dispatched action
  objects into a list, in dispatch order.
* The HTTP transport (axios) is an arbitrary function from the outgoing
  request to either a response body or an error value
  (`Transport := Request → Except JSValue JSValue`); `response.data` is
  the `ok` payload and the raw rejection value is the `error` payload.
* Promises are modelled by `Except JSValue JSValue`: `ok` is a resolved
  promise with its value, `error` a rejected promise with its value.
-/

namespace HttpUtils

/-- The redux-constants status tags PENDING / SUCCESS / ERROR.
Modelled from the spec: the file `redux-constants` is not under `src/`;
the spec only requires three distinct status tags. -/
inductive Status where
  | PENDING
  | SUCCESS
  | ERROR
deriving DecidableEq, Repr

/-- The redux-constants verb tags GET / POST / PUT / DELETE.
Modelled from the spec: the file `redux-constants` is not under `src/`;
the spec only requires four distinct verb tags. -/
inductive Verb where
  | GET
  | POST
  | PUT
  | DELETE
deriving DecidableEq, Repr

/-- A JavaScript value, as far as this module inspects values:
`undefined`, `null`, booleans, numbers (integral; NaN is not needed),
strings, and objects as association lists of fields. -/
inductive JSValue where
  | undef : JSValue
  | null : JSValue
  | bool : Bool → JSValue
  | num : Int → JSValue
  | str : String → JSValue
  | obj : List (String × JSValue) → JSValue
deriving Repr

/-- JavaScript truthiness of a `JSValue`. -/
def truthy : JSValue → Bool
  | JSValue.undef => false
  | JSValue.null => false
  | JSValue.bool b => b
  | JSValue.num n => n != 0
  | JSValue.str s => s != ""
  | JSValue.obj _ => true

/-- The JavaScript `a || b` operator restricted to its value. -/
def jsOr (a b : JSValue) : JSValue :=
  if truthy a then a else b

/-- JavaScript property access `v.k`: the field value on an object when
present, `undefined` otherwise (this module only dereferences values it
has already checked to be truthy, so the TypeError cases never arise). -/
def getField : JSValue → String → JSValue
  | JSValue.obj fields, k =>
    match fields.find? (fun p => p.1 == k) with
    | some p => p.2
    | none => JSValue.undef
  | _, _ => JSValue.undef

/-- JavaScript string coercion, as used by the template literal building
the URL.  Only the string and falsy cases are exercised by the module. -/
def jsToString : JSValue → String
  | JSValue.undef => "undefined"
  | JSValue.null => "null"
  | JSValue.bool b => if b then "true" else "false"
  | JSValue.num n => toString n
  | JSValue.str s => s
  | JSValue.obj _ => "[object Object]"

/-- An action object handed to the dispatch sink.  The module dispatches
three shapes of object; we record for each the `type` tag, the optional
top-level `payload`, the optional top-level `status` field, and the
optional `meta.status` field (`meta`, when present, holds only a status). -/
structure Action where
  type : String
  payload : Option JSValue
  status : Option Status
  meta : Option Status
deriving Repr

/-- The module collaborators: `getApiUrl()` resolved at module load,
`getCookie('token')` and `getEnvironment()` resolved per call.
Modelled from the spec: `environment-utils` and `cookie-utils` are not
under `src/`; the spec describes them as read-only string sources. -/
structure Env where
  apiUrl : String
  cookieToken : String
  environment : String

/-- The outgoing request as seen by the transport: the verb used to index
the client, the URL (first element of `reqArgs`), the data payload pushed
onto `reqArgs` for POST/PUT (`none` means no body argument at all), and
the config argument, reduced to its `Authorization` header value
(`none` models the empty config object, which carries no headers). -/
structure Request where
  method : Verb
  url : String
  dataArg : Option JSValue
  authHeader : Option String
deriving Repr

/-- The `opts` object passed to `httpRequest`: fields read off it are
`endpoint`, `data` and `requiresAuth`; a field the caller did not supply
is `undefined`. -/
structure Opts where
  endpoint : JSValue
  data : JSValue
  requiresAuth : JSValue

/-- The HTTP transport: axios, abstracted to a function from the outgoing
request to `response.data` on fulfilment or the raw error on rejection. -/
def Transport : Type := Request → Except JSValue JSValue

/-- The PENDING action dispatched first by `httpRequest`:
`(type: actionType, meta: (status: PENDING))` — no top-level status, no
payload. -/
def pendingAction (actionType : String) : Action :=
  { type := actionType, payload := none, status := none, meta := some Status.PENDING }

/-- The SUCCESS action dispatched by `httpRequest` after the transport
fulfils: `(type: actionType, meta: (status: SUCCESS), payload: response.data)`
— no top-level status. -/
def successAction (actionType : String) (respData : JSValue) : Action :=
  { type := actionType, payload := some respData, status := none, meta := some Status.SUCCESS }

/-- The ERROR action dispatched by `handleError`:
`(type, payload: errorMessage, status: ERROR)` — top-level status, no meta. -/
def errorAction (type : String) (payload : JSValue) : Action :=
  { type := type, payload := some payload, status := some Status.ERROR, meta := none }

/-- The error normalisation in `handleError`:
`error && error.response ? error.response.data : error`. -/
def normalizeError (error : JSValue) : JSValue :=
  if truthy error && truthy (getField error "response")
  then getField (getField error "response") "data"
  else error

/-- What a call to `handleError` produces: whether the console diagnostics
ran, the actions dispatched, and the value of the rejected promise it
returns. -/
structure HandleErrorResult where
  logged : Bool
  events : List Action
  rejectedWith : JSValue
deriving Repr

/-- `handleError(dispatch, error, type)`: logs in development, dispatches
one ERROR action carrying the normalised error, and returns
`Promise.reject(errorMessage)`. -/
def handleError (env : Env) (error : JSValue) (type : String) : HandleErrorResult :=
  { logged := env.environment == "development"
    events := [errorAction type (normalizeError error)]
    rejectedWith := normalizeError error }

/-- The request assembled by `httpRequest` from `reqArgs`:
URL built by the template literal over `opts.endpoint || ''`; the data
argument `opts.data || (empty object)` pushed only for POST/PUT; the
config argument carrying `Authorization: getCookie('token')` when
`opts.requiresAuth` is truthy and nothing otherwise. -/
def buildRequest (env : Env) (requestType : Verb) (opts : Opts) : Request :=
  { method := requestType
    url := env.apiUrl ++ "/" ++ jsToString (jsOr opts.endpoint (JSValue.str ""))
    dataArg :=
      if requestType = Verb.POST ∨ requestType = Verb.PUT then
        some (jsOr opts.data (JSValue.obj []))
      else none
    authHeader :=
      if truthy opts.requiresAuth then some env.cookieToken else none }

/-- `httpRequest(dispatch, requestType, actionType, opts)`: dispatches the
PENDING action, awaits the transport on the assembled request, and either
dispatches the SUCCESS action with `response.data` and resolves with
`response.data`, or rejects with the raw error (the catch block performs
no dispatch).  Result: the dispatched actions in order, and the promise. -/
def httpRequest (env : Env) (transport : Transport) (requestType : Verb)
    (actionType : String) (opts : Opts) : List Action × Except JSValue JSValue :=
  match transport (buildRequest env requestType opts) with
  | Except.ok respData =>
    ([pendingAction actionType, successAction actionType respData], Except.ok respData)
  | Except.error err => ([pendingAction actionType], Except.error err)

/-- What a verb wrapper call produces: the actions dispatched over the
whole call and the promise the wrapper returns. -/
structure CallResult where
  events : List Action
  result : Except JSValue JSValue
deriving Repr

/-- `post(dispatch, type, endpoint, data, requiresAuth)`: awaits
`httpRequest` with verb POST; resolves with its result, or on rejection
delegates to `handleError` and returns its rejected promise. -/
def post (env : Env) (transport : Transport) (type : String)
    (endpoint data requiresAuth : JSValue) : CallResult :=
  match httpRequest env transport Verb.POST type ⟨endpoint, data, requiresAuth⟩ with
  | (evs, Except.ok results) => ⟨evs, Except.ok results⟩
  | (evs, Except.error err) =>
    let he := handleError env err type
    ⟨evs ++ he.events, Except.error he.rejectedWith⟩

/-- `put(dispatch, type, endpoint, data, requiresAuth)`: awaits
`httpRequest` with verb PUT and discards the resolved value (the async
function body has no return on the success path, so it resolves with
`undefined`); on rejection delegates to `handleError`. -/
def put (env : Env) (transport : Transport) (type : String)
    (endpoint data requiresAuth : JSValue) : CallResult :=
  match httpRequest env transport Verb.PUT type ⟨endpoint, data, requiresAuth⟩ with
  | (evs, Except.ok _) => ⟨evs, Except.ok JSValue.undef⟩
  | (evs, Except.error err) =>
    let he := handleError env err type
    ⟨evs ++ he.events, Except.error he.rejectedWith⟩

/-- `get(dispatch, type, endpoint, requiresAuth)`: awaits `httpRequest`
with verb GET (the opts object carries no `data` field, so `opts.data`
is `undefined`) and discards the resolved value; on rejection delegates
to `handleError`. -/
def get (env : Env) (transport : Transport) (type : String)
    (endpoint requiresAuth : JSValue) : CallResult :=
  match httpRequest env transport Verb.GET type ⟨endpoint, JSValue.undef, requiresAuth⟩ with
  | (evs, Except.ok _) => ⟨evs, Except.ok JSValue.undef⟩
  | (evs, Except.error err) =>
    let he := handleError env err type
    ⟨evs ++ he.events, Except.error he.rejectedWith⟩

/-- `del(dispatch, type, endpoint, requiresAuth)`: awaits `httpRequest`
with verb DELETE (no `data` field in opts) and discards the resolved
value; on rejection delegates to `handleError`. -/
def del (env : Env) (transport : Transport) (type : String)
    (endpoint requiresAuth : JSValue) : CallResult :=
  match httpRequest env transport Verb.DELETE type ⟨endpoint, JSValue.undef, requiresAuth⟩ with
  | (evs, Except.ok _) => ⟨evs, Except.ok JSValue.undef⟩
  | (evs, Except.error err) =>
    let he := handleError env err type
    ⟨evs ++ he.events, Except.error he.rejectedWith⟩

/-! ### Case-analysis helper lemmas -/

theorem httpRequest_of_ok {env : Env} {transport : Transport} {v : Verb} {ty : String}
    {opts : Opts} {d : JSValue} (h : transport (buildRequest env v opts) = Except.ok d) :
    httpRequest env transport v ty opts =
      ([pendingAction ty, successAction ty d], Except.ok d) := by
  simp only [httpRequest, h]

theorem httpRequest_of_error {env : Env} {transport : Transport} {v : Verb} {ty : String}
    {opts : Opts} {e : JSValue} (h : transport (buildRequest env v opts) = Except.error e) :
    httpRequest env transport v ty opts = ([pendingAction ty], Except.error e) := by
  simp only [httpRequest, h]

theorem post_of_ok {env : Env} {transport : Transport} {ty : String}
    {ep dat ra d : JSValue}
    (h : transport (buildRequest env Verb.POST ⟨ep, dat, ra⟩) = Except.ok d) :
    post env transport ty ep dat ra =
      ⟨[pendingAction ty, successAction ty d], Except.ok d⟩ := by
  simp only [post, httpRequest, h]

theorem post_of_error {env : Env} {transport : Transport} {ty : String}
    {ep dat ra e : JSValue}
    (h : transport (buildRequest env Verb.POST ⟨ep, dat, ra⟩) = Except.error e) :
    post env transport ty ep dat ra =
      ⟨[pendingAction ty, errorAction ty (normalizeError e)],
        Except.error (normalizeError e)⟩ := by
  simp only [post, httpRequest, h, handleError, List.cons_append, List.nil_append]

theorem put_of_ok {env : Env} {transport : Transport} {ty : String}
    {ep dat ra d : JSValue}
    (h : transport (buildRequest env Verb.PUT ⟨ep, dat, ra⟩) = Except.ok d) :
    put env transport ty ep dat ra =
      ⟨[pendingAction ty, successAction ty d], Except.ok JSValue.undef⟩ := by
  simp only [put, httpRequest, h]

theorem put_of_error {env : Env} {transport : Transport} {ty : String}
    {ep dat ra e : JSValue}
    (h : transport (buildRequest env Verb.PUT ⟨ep, dat, ra⟩) = Except.error e) :
    put env transport ty ep dat ra =
      ⟨[pendingAction ty, errorAction ty (normalizeError e)],
        Except.error (normalizeError e)⟩ := by
  simp only [put, httpRequest, h, handleError, List.cons_append, List.nil_append]

theorem get_of_ok {env : Env} {transport : Transport} {ty : String}
    {ep ra d : JSValue}
    (h : transport (buildRequest env Verb.GET ⟨ep, JSValue.undef, ra⟩) = Except.ok d) :
    get env transport ty ep ra =
      ⟨[pendingAction ty, successAction ty d], Except.ok JSValue.undef⟩ := by
  simp only [get, httpRequest, h]

theorem get_of_error {env : Env} {transport : Transport} {ty : String}
    {ep ra e : JSValue}
    (h : transport (buildRequest env Verb.GET ⟨ep, JSValue.undef, ra⟩) = Except.error e) :
    get env transport ty ep ra =
      ⟨[pendingAction ty, errorAction ty (normalizeError e)],
        Except.error (normalizeError e)⟩ := by
  simp only [get, httpRequest, h, handleError, List.cons_append, List.nil_append]

theorem del_of_ok {env : Env} {transport : Transport} {ty : String}
    {ep ra d : JSValue}
    (h : transport (buildRequest env Verb.DELETE ⟨ep, JSValue.undef, ra⟩) = Except.ok d) :
    del env transport ty ep ra =
      ⟨[pendingAction ty, successAction ty d], Except.ok JSValue.undef⟩ := by
  simp only [del, httpRequest, h]

theorem del_of_error {env : Env} {transport : Transport} {ty : String}
    {ep ra e : JSValue}
    (h : transport (buildRequest env Verb.DELETE ⟨ep, JSValue.undef, ra⟩) = Except.error e) :
    del env transport ty ep ra =
      ⟨[pendingAction ty, errorAction ty (normalizeError e)],
        Except.error (normalizeError e)⟩ := by
  simp only [del, httpRequest, h, handleError, List.cons_append, List.nil_append]

/-! ### Lifecycle predicates -/

/-- An action announces PENDING (nested under meta, as the module emits it). -/
def isPendingA (a : Action) : Prop := a.meta = some Status.PENDING

/-- The terminal action matching a settled promise: a SUCCESS action
(meta status, no top-level status) when the promise resolved, an ERROR
action (top-level status, no meta) when it rejected. -/
def isTerminalFor (r : Except JSValue JSValue) (a : Action) : Prop :=
  match r with
  | Except.ok _ => a.meta = some Status.SUCCESS ∧ a.status = none
  | Except.error _ => a.status = some Status.ERROR ∧ a.meta = none

/-- The per-invocation lifecycle invariant: the dispatched actions are
exactly one PENDING action followed by exactly one terminal action of the
kind matching the outcome, and the terminal action is not a PENDING one. -/
def goodLifecycle (ty : String) (r : CallResult) : Prop :=
  ∃ t, r.events = [pendingAction ty, t] ∧ isTerminalFor r.result t ∧ ¬ isPendingA t

theorem goodLifecycle_ok (ty : String) (d : JSValue) :
    goodLifecycle ty ⟨[pendingAction ty, successAction ty d], Except.ok d⟩ :=
  ⟨successAction ty d, rfl, ⟨rfl, rfl⟩, by simp [isPendingA, successAction]⟩

theorem goodLifecycle_ok_undef (ty : String) (d : JSValue) :
    goodLifecycle ty ⟨[pendingAction ty, successAction ty d], Except.ok JSValue.undef⟩ :=
  ⟨successAction ty d, rfl, ⟨rfl, rfl⟩, by simp [isPendingA, successAction]⟩

theorem goodLifecycle_error (ty : String) (m : JSValue) :
    goodLifecycle ty ⟨[pendingAction ty, errorAction ty m], Except.error m⟩ :=
  ⟨errorAction ty m, rfl, ⟨rfl, rfl⟩, by simp [isPendingA, errorAction]⟩

/-! ### Claim theorems -/

/-- C1: every verb wrapper invocation dispatches exactly one PENDING
action followed by exactly one terminal action — SUCCESS when the
transport succeeds, ERROR when it fails — in that order, with no return
to PENDING and no second terminal action. -/
theorem c1_single_pending_then_terminal (env : Env) (transport : Transport)
    (ty : String) (ep dat ra : JSValue) :
    goodLifecycle ty (post env transport ty ep dat ra) ∧
    goodLifecycle ty (put env transport ty ep dat ra) ∧
    goodLifecycle ty (get env transport ty ep ra) ∧
    goodLifecycle ty (del env transport ty ep ra) := by
  refine ⟨?_, ?_, ?_, ?_⟩
  · cases h : transport (buildRequest env Verb.POST ⟨ep, dat, ra⟩) with
    | ok d => rw [post_of_ok h]; exact goodLifecycle_ok ty d
    | error e => rw [post_of_error h]; exact goodLifecycle_error ty (normalizeError e)
  · cases h : transport (buildRequest env Verb.PUT ⟨ep, dat, ra⟩) with
    | ok d => rw [put_of_ok h]; exact goodLifecycle_ok_undef ty d
    | error e => rw [put_of_error h]; exact goodLifecycle_error ty (normalizeError e)
  · cases h : transport (buildRequest env Verb.GET ⟨ep, JSValue.undef, ra⟩) with
    | ok d => rw [get_of_ok h]; exact goodLifecycle_ok_undef ty d
    | error e => rw [get_of_error h]; exact goodLifecycle_error ty (normalizeError e)
  · cases h : transport (buildRequest env Verb.DELETE ⟨ep, JSValue.undef, ra⟩) with
    | ok d => rw [del_of_ok h]; exact goodLifecycle_ok_undef ty d
    | error e => rw [del_of_error h]; exact goodLifecycle_error ty (normalizeError e)

/-- C2: when the transport succeeds with body `d`, the dispatcher emits
PENDING then a SUCCESS action whose payload is `d`, and its promise
resolves with `d`. -/
theorem c2_success_payload_and_resolution (env : Env) (transport : Transport)
    (v : Verb) (ty : String) (opts : Opts) (d : JSValue)
    (h : transport (buildRequest env v opts) = Except.ok d) :
    httpRequest env transport v ty opts =
      ([pendingAction ty, successAction ty d], Except.ok d) ∧
    (successAction ty d).payload = some d :=
  ⟨httpRequest_of_ok h, rfl⟩

theorem c2_success_payload_and_resolution_witness :
    httpRequest ⟨"http://api", "tok", "production"⟩
        (fun _ => Except.ok (JSValue.str "B")) Verb.GET "T"
        ⟨JSValue.str "user", JSValue.undef, JSValue.bool false⟩ =
      ([pendingAction "T", successAction "T" (JSValue.str "B")],
        Except.ok (JSValue.str "B")) ∧
    (successAction "T" (JSValue.str "B")).payload = some (JSValue.str "B") :=
  c2_success_payload_and_resolution ⟨"http://api", "tok", "production"⟩
    (fun _ => Except.ok (JSValue.str "B")) Verb.GET "T"
    ⟨JSValue.str "user", JSValue.undef, JSValue.bool false⟩ (JSValue.str "B") rfl

/-- C3 counterexample: for the error value whose `response` field is an
empty object — an error that carries an HTTP response but no body — the
claim says the raw error value becomes the payload, yet `handleError`
dispatches and rejects with `undefined` (the missing `response.data`),
which is not the raw error. -/
theorem c3_counterexample_bodyless_response :
    (handleError ⟨"http://api", "tok", "production"⟩
        (JSValue.obj [("response", JSValue.obj [])]) "T").events =
      [errorAction "T" JSValue.undef] ∧
    (handleError ⟨"http://api", "tok", "production"⟩
        (JSValue.obj [("response", JSValue.obj [])]) "T").rejectedWith =
      JSValue.undef ∧
    JSValue.obj [("response", JSValue.obj [])] ≠ JSValue.undef :=
  ⟨rfl, rfl, fun h => JSValue.noConfusion h⟩

/-- C3 amended: for every failed call, the error reporter dispatches
exactly one ERROR action whose payload is `error.response.data` whenever
the error and its `response` field are both truthy (so `undefined` when
that response carries no body), and the raw error value otherwise; it
rejects with that same payload. -/
theorem c3_error_normalization (env : Env) (error : JSValue) (ty : String) :
    (handleError env error ty).events =
      [errorAction ty
        (if truthy error && truthy (getField error "response")
         then getField (getField error "response") "data"
         else error)] ∧
    (handleError env error ty).rejectedWith =
      (if truthy error && truthy (getField error "response")
       then getField (getField error "response") "data"
       else error) :=
  ⟨rfl, rfl⟩

/-- C4 counterexample: a POST whose supplied body is the (falsy) number 0
goes out with the empty object as payload, not the supplied body, even
though the body was supplied rather than absent. -/
theorem c4_counterexample_falsy_body :
    (buildRequest ⟨"http://api", "tok", "production"⟩ Verb.POST
        ⟨JSValue.str "e", JSValue.num 0, JSValue.undef⟩).dataArg =
      some (JSValue.obj []) ∧
    JSValue.obj ([] : List (String × JSValue)) ≠ JSValue.num 0 :=
  ⟨rfl, fun h => JSValue.noConfusion h⟩

/-- C4 amended: every POST or PUT call includes the supplied body as the
outgoing payload when the body is truthy and the empty object otherwise
(in particular when the body is absent); GET and DELETE calls never
include a body. -/
theorem c4_body_attachment (env : Env) (opts : Opts) :
    (buildRequest env Verb.POST opts).dataArg =
      some (if truthy opts.data then opts.data else JSValue.obj []) ∧
    (buildRequest env Verb.PUT opts).dataArg =
      some (if truthy opts.data then opts.data else JSValue.obj []) ∧
    (buildRequest env Verb.GET opts).dataArg = none ∧
    (buildRequest env Verb.DELETE opts).dataArg = none :=
  ⟨rfl, rfl, rfl, rfl⟩

/-- C5: with `requiresAuth` equal to `true` the outgoing request carries
an Authorization header whose value is the token read from the cookie
store; with `requiresAuth` equal to `false` or absent (`undefined`) the
config object is empty, so no Authorization header and no other header is
attached. -/
theorem c5_authorization_header (env : Env) (v : Verb) (ep dat : JSValue) :
    (buildRequest env v ⟨ep, dat, JSValue.bool true⟩).authHeader =
      some env.cookieToken ∧
    (buildRequest env v ⟨ep, dat, JSValue.bool false⟩).authHeader = none ∧
    (buildRequest env v ⟨ep, dat, JSValue.undef⟩).authHeader = none :=
  ⟨rfl, rfl, rfl⟩

/-- C6: on a successful transport, `post` resolves with the dispatcher
result (the response body `d`), while `put`, `get` and `del` resolve with
`undefined`, discarding the body. -/
theorem c6_resolution_asymmetry (env : Env) (transport : Transport) (ty : String)
    (ep dat ra d : JSValue)
    (hpost : transport (buildRequest env Verb.POST ⟨ep, dat, ra⟩) = Except.ok d)
    (hput : transport (buildRequest env Verb.PUT ⟨ep, dat, ra⟩) = Except.ok d)
    (hget : transport (buildRequest env Verb.GET ⟨ep, JSValue.undef, ra⟩) = Except.ok d)
    (hdel : transport (buildRequest env Verb.DELETE ⟨ep, JSValue.undef, ra⟩) = Except.ok d) :
    (post env transport ty ep dat ra).result = Except.ok d ∧
    (put env transport ty ep dat ra).result = Except.ok JSValue.undef ∧
    (get env transport ty ep ra).result = Except.ok JSValue.undef ∧
    (del env transport ty ep ra).result = Except.ok JSValue.undef := by
  rw [post_of_ok hpost, put_of_ok hput, get_of_ok hget, del_of_ok hdel]
  exact ⟨rfl, rfl, rfl, rfl⟩

theorem c6_resolution_asymmetry_witness :
    (post ⟨"http://api", "tok", "production"⟩ (fun _ => Except.ok (JSValue.str "B"))
        "T" (JSValue.str "e") (JSValue.obj []) (JSValue.bool true)).result =
      Except.ok (JSValue.str "B") ∧
    (put ⟨"http://api", "tok", "production"⟩ (fun _ => Except.ok (JSValue.str "B"))
        "T" (JSValue.str "e") (JSValue.obj []) (JSValue.bool true)).result =
      Except.ok JSValue.undef ∧
    (get ⟨"http://api", "tok", "production"⟩ (fun _ => Except.ok (JSValue.str "B"))
        "T" (JSValue.str "e") (JSValue.bool true)).result =
      Except.ok JSValue.undef ∧
    (del ⟨"http://api", "tok", "production"⟩ (fun _ => Except.ok (JSValue.str "B"))
        "T" (JSValue.str "e") (JSValue.bool true)).result =
      Except.ok JSValue.undef :=
  c6_resolution_asymmetry ⟨"http://api", "tok", "production"⟩
    (fun _ => Except.ok (JSValue.str "B")) "T" (JSValue.str "e") (JSValue.obj [])
    (JSValue.bool true) (JSValue.str "B") rfl rfl rfl rfl

/-- C7: when the transport fails with raw error `e`, the dispatcher
rejects with `e` unmodified and dispatches only the PENDING action — no
action it emits carries an ERROR status anywhere; the ERROR report comes
only from the verb wrappers, each of which appends exactly the error
reporter output after the dispatcher events. -/
theorem c7_raw_rejection_no_dispatch (env : Env) (transport : Transport)
    (v : Verb) (ty : String) (opts : Opts) (e e2 : JSValue) (ep dat ra : JSValue)
    (h : transport (buildRequest env v opts) = Except.error e)
    (hpost : transport (buildRequest env Verb.POST ⟨ep, dat, ra⟩) = Except.error e2)
    (hput : transport (buildRequest env Verb.PUT ⟨ep, dat, ra⟩) = Except.error e2)
    (hget : transport (buildRequest env Verb.GET ⟨ep, JSValue.undef, ra⟩) = Except.error e2)
    (hdel : transport (buildRequest env Verb.DELETE ⟨ep, JSValue.undef, ra⟩) = Except.error e2) :
    httpRequest env transport v ty opts = ([pendingAction ty], Except.error e) ∧
    (∀ a ∈ (httpRequest env transport v ty opts).1,
      a.status ≠ some Status.ERROR ∧ a.meta ≠ some Status.ERROR) ∧
    (post env transport ty ep dat ra).events =
      [pendingAction ty] ++ (handleError env e2 ty).events ∧
    (put env transport ty ep dat ra).events =
      [pendingAction ty] ++ (handleError env e2 ty).events ∧
    (get env transport ty ep ra).events =
      [pendingAction ty] ++ (handleError env e2 ty).events ∧
    (del env transport ty ep ra).events =
      [pendingAction ty] ++ (handleError env e2 ty).events := by
  rw [httpRequest_of_error h, post_of_error hpost, put_of_error hput,
    get_of_error hget, del_of_error hdel]
  refine ⟨rfl, ?_, rfl, rfl, rfl, rfl⟩
  intro a ha
  simp only [List.mem_cons, List.not_mem_nil, or_false] at ha
  subst ha
  exact ⟨by simp [pendingAction], by simp [pendingAction]⟩

theorem c7_raw_rejection_no_dispatch_witness :
    httpRequest ⟨"http://api", "tok", "production"⟩
        (fun _ => Except.error (JSValue.str "boom")) Verb.PUT "T"
        ⟨JSValue.str "e", JSValue.obj [], JSValue.bool true⟩ =
      ([pendingAction "T"], Except.error (JSValue.str "boom")) ∧
    (∀ a ∈ (httpRequest ⟨"http://api", "tok", "production"⟩
        (fun _ => Except.error (JSValue.str "boom")) Verb.PUT "T"
        ⟨JSValue.str "e", JSValue.obj [], JSValue.bool true⟩).1,
      a.status ≠ some Status.ERROR ∧ a.meta ≠ some Status.ERROR) ∧
    (post ⟨"http://api", "tok", "production"⟩
        (fun _ => Except.error (JSValue.str "boom")) "T" (JSValue.str "e")
        (JSValue.obj []) (JSValue.bool true)).events =
      [pendingAction "T"] ++
        (handleError ⟨"http://api", "tok", "production"⟩ (JSValue.str "boom") "T").events ∧
    (put ⟨"http://api", "tok", "production"⟩
        (fun _ => Except.error (JSValue.str "boom")) "T" (JSValue.str "e")
        (JSValue.obj []) (JSValue.bool true)).events =
      [pendingAction "T"] ++
        (handleError ⟨"http://api", "tok", "production"⟩ (JSValue.str "boom") "T").events ∧
    (get ⟨"http://api", "tok", "production"⟩
        (fun _ => Except.error (JSValue.str "boom")) "T" (JSValue.str "e")
        (JSValue.bool true)).events =
      [pendingAction "T"] ++
        (handleError ⟨"http://api", "tok", "production"⟩ (JSValue.str "boom") "T").events ∧
    (del ⟨"http://api", "tok", "production"⟩
        (fun _ => Except.error (JSValue.str "boom")) "T" (JSValue.str "e")
        (JSValue.bool true)).events =
      [pendingAction "T"] ++
        (handleError ⟨"http://api", "tok", "production"⟩ (JSValue.str "boom") "T").events :=
  c7_raw_rejection_no_dispatch ⟨"http://api", "tok", "production"⟩
    (fun _ => Except.error (JSValue.str "boom")) Verb.PUT "T"
    ⟨JSValue.str "e", JSValue.obj [], JSValue.bool true⟩ (JSValue.str "boom")
    (JSValue.str "boom") (JSValue.str "e") (JSValue.obj []) (JSValue.bool true)
    rfl rfl rfl rfl rfl

/-- C8: for every call whose endpoint is the string `s`, the outgoing URL
is the base URL, a slash, and `s`, in that order; the empty endpoint is
allowed and yields the base URL followed by a bare slash. -/
theorem c8_url_construction (env : Env) (v : Verb) (s : String) (dat ra : JSValue) :
    (buildRequest env v ⟨JSValue.str s, dat, ra⟩).url = env.apiUrl ++ "/" ++ s := by
  by_cases hs : s = ""
  · subst hs; rfl
  · simp [buildRequest, jsOr, truthy, jsToString, hs]

/-- The shape asymmetry of dispatched actions: PENDING and SUCCESS carry
their status nested under `meta` with no top-level `status` field, while
ERROR carries a top-level `status` with no `meta`. -/
def shapeOK (a : Action) : Prop :=
  ((a.meta = some Status.PENDING ∨ a.meta = some Status.SUCCESS) ∧ a.status = none) ∨
  (a.status = some Status.ERROR ∧ a.meta = none)

theorem shapeOK_pending (ty : String) : shapeOK (pendingAction ty) :=
  Or.inl ⟨Or.inl rfl, rfl⟩

theorem shapeOK_success (ty : String) (d : JSValue) : shapeOK (successAction ty d) :=
  Or.inl ⟨Or.inr rfl, rfl⟩

theorem shapeOK_error (ty : String) (m : JSValue) : shapeOK (errorAction ty m) :=
  Or.inr ⟨rfl, rfl⟩

/-- C9: every action any verb wrapper ever hands to the dispatch sink has
one of the two asymmetric shapes: PENDING/SUCCESS nested as `meta.status`
with no top-level `status`, or ERROR as a top-level `status` with no
`meta`. -/
theorem c9_event_shape_asymmetry (env : Env) (transport : Transport)
    (ty : String) (ep dat ra : JSValue) :
    (∀ a ∈ (post env transport ty ep dat ra).events, shapeOK a) ∧
    (∀ a ∈ (put env transport ty ep dat ra).events, shapeOK a) ∧
    (∀ a ∈ (get env transport ty ep ra).events, shapeOK a) ∧
    (∀ a ∈ (del env transport ty ep ra).events, shapeOK a) := by
  refine ⟨?_, ?_, ?_, ?_⟩
  · cases h : transport (buildRequest env Verb.POST ⟨ep, dat, ra⟩) with
    | ok d =>
      rw [post_of_ok h]
      intro a ha
      simp only [List.mem_cons, List.not_mem_nil, or_false] at ha
      rcases ha with rfl | rfl
      exacts [shapeOK_pending ty, shapeOK_success ty d]
    | error e =>
      rw [post_of_error h]
      intro a ha
      simp only [List.mem_cons, List.not_mem_nil, or_false] at ha
      rcases ha with rfl | rfl
      exacts [shapeOK_pending ty, shapeOK_error ty (normalizeError e)]
  · cases h : transport (buildRequest env Verb.PUT ⟨ep, dat, ra⟩) with
    | ok d =>
      rw [put_of_ok h]
      intro a ha
      simp only [List.mem_cons, List.not_mem_nil, or_false] at ha
      rcases ha with rfl | rfl
      exacts [shapeOK_pending ty, shapeOK_success ty d]
    | error e =>
      rw [put_of_error h]
      intro a ha
      simp only [List.mem_cons, List.not_mem_nil, or_false] at ha
      rcases ha with rfl | rfl
      exacts [shapeOK_pending ty, shapeOK_error ty (normalizeError e)]
  · cases h : transport (buildRequest env Verb.GET ⟨ep, JSValue.undef, ra⟩) with
    | ok d =>
      rw [get_of_ok h]
      intro a ha
      simp only [List.mem_cons, List.not_mem_nil, or_false] at ha
      rcases ha with rfl | rfl
      exacts [shapeOK_pending ty, shapeOK_success ty d]
    | error e =>
      rw [get_of_error h]
      intro a ha
      simp only [List.mem_cons, List.not_mem_nil, or_false] at ha
      rcases ha with rfl | rfl
      exacts [shapeOK_pending ty, shapeOK_error ty (normalizeError e)]
  · cases h : transport (buildRequest env Verb.DELETE ⟨ep, JSValue.undef, ra⟩) with
    | ok d =>
      rw [del_of_ok h]
      intro a ha
      simp only [List.mem_cons, List.not_mem_nil, or_false] at ha
      rcases ha with rfl | rfl
      exacts [shapeOK_pending ty, shapeOK_success ty d]
    | error e =>
      rw [del_of_error h]
      intro a ha
      simp only [List.mem_cons, List.not_mem_nil, or_false] at ha
      rcases ha with rfl | rfl
      exacts [shapeOK_pending ty, shapeOK_error ty (normalizeError e)]

theorem c9_event_shape_asymmetry_witness : shapeOK (pendingAction "T") :=
  (c9_event_shape_asymmetry ⟨"http://api", "tok", "production"⟩
      (fun _ => Except.ok (JSValue.str "B")) "T" (JSValue.str "e")
      (JSValue.obj []) (JSValue.bool true)).1 (pendingAction "T")
    (by rw [post_of_ok rfl]; exact List.mem_cons_self _ _)

/-- C10: two independent universals. First, for every POST or PUT call
whose supplied body is falsy — which covers 0, the empty string, `false`,
`null` and `undefined` — the outgoing payload is the empty object, not
that value, whatever the endpoint is. Second, for every call whose
endpoint is falsy the URL is built with the empty string in its place,
yielding base URL plus a bare slash, whatever the body is. Each half
assumes only its own falsiness. -/
theorem c10_falsy_defaults (env : Env) (ep dat ra : JSValue) :
    (truthy dat = false →
      (buildRequest env Verb.POST ⟨ep, dat, ra⟩).dataArg = some (JSValue.obj []) ∧
      (buildRequest env Verb.PUT ⟨ep, dat, ra⟩).dataArg = some (JSValue.obj [])) ∧
    (truthy ep = false →
      ∀ v : Verb, (buildRequest env v ⟨ep, dat, ra⟩).url = env.apiUrl ++ "/") := by
  constructor
  · intro hd
    constructor <;> simp [buildRequest, jsOr, hd]
  · intro he v
    simp [buildRequest, jsOr, he, jsToString]

theorem c10_falsy_defaults_witness :
    ((buildRequest ⟨"http://api", "tok", "production"⟩ Verb.POST
        ⟨JSValue.str "users", JSValue.num 0, JSValue.bool true⟩).dataArg =
      some (JSValue.obj []) ∧
     (buildRequest ⟨"http://api", "tok", "production"⟩ Verb.PUT
        ⟨JSValue.str "users", JSValue.num 0, JSValue.bool true⟩).dataArg =
      some (JSValue.obj [])) ∧
    (∀ v : Verb, (buildRequest ⟨"http://api", "tok", "production"⟩ v
        ⟨JSValue.str "", JSValue.obj [("k", JSValue.num 1)], JSValue.bool true⟩).url =
      "http://api" ++ "/") :=
  ⟨(c10_falsy_defaults ⟨"http://api", "tok", "production"⟩ (JSValue.str "users")
      (JSValue.num 0) (JSValue.bool true)).1 (by decide),
   (c10_falsy_defaults ⟨"http://api", "tok", "production"⟩ (JSValue.str "")
      (JSValue.obj [("k", JSValue.num 1)]) (JSValue.bool true)).2 (by decide)⟩

end HttpUtils
